import Mathlib

/-!
Verification of the request-signing subsystem and resource operations of a
CLI client for a batch-computing API (`src/api.js` of the repository).

The JavaScript source is shallowly embedded: strings become `String`, byte
sequences become `List Nat` (each element a byte value), `crypto`'s
SHA-256 / HMAC-SHA256 primitives are implemented executably from
FIPS 180-4 / RFC 2104, and the impure capture of the current instant
(`new Date()`) becomes an explicit `Instant` parameter.
-/

namespace AwsBatch

/-! ## Bytes and hex -/

/-- UTF-8 encoding of one character, as byte values. -/
def utf8Char (c : Char) : List Nat :=
  let n := c.toNat
  if n < 128 then [n]
  else if n < 2048 then [192 + n / 64, 128 + n % 64]
  else if n < 65536 then [224 + n / 4096, 128 + (n / 64) % 64, 128 + n % 64]
  else [240 + n / 262144, 128 + (n / 4096) % 64, 128 + (n / 64) % 64, 128 + n % 64]

/-- UTF-8 bytes of a string (the encoding `crypto.update` applies to
JavaScript string inputs). -/
def strBytes (s : String) : List Nat :=
  s.data.foldr (fun c acc => utf8Char c ++ acc) []

/-- Lower-case hex rendering of a byte list (`digest('hex')`);
`Nat.digitChar` renders `0`-`15` as `0`-`9`, `a`-`f`. -/
def toHex (bs : List Nat) : String :=
  String.mk (bs.foldr
    (fun b acc => Nat.digitChar (b / 16 % 16) :: Nat.digitChar (b % 16) :: acc) [])

/-! ## SHA-256 (FIPS 180-4) -/

/-- Truncation to a 32-bit word. -/
def w32 (n : Nat) : Nat := n % 4294967296

/-- Right rotation of a 32-bit word. -/
def rotr (n x : Nat) : Nat := (x >>> n) ||| w32 (x <<< (32 - n))

def bigS0 (x : Nat) : Nat := (rotr 2 x) ^^^ (rotr 13 x) ^^^ (rotr 22 x)
def bigS1 (x : Nat) : Nat := (rotr 6 x) ^^^ (rotr 11 x) ^^^ (rotr 25 x)
def smallS0 (x : Nat) : Nat := (rotr 7 x) ^^^ (rotr 18 x) ^^^ (x >>> 3)
def smallS1 (x : Nat) : Nat := (rotr 17 x) ^^^ (rotr 19 x) ^^^ (x >>> 10)

/-- The 64 SHA-256 round constants (decimal). -/
def K256 : List Nat :=
  [1116352408, 1899447441, 3049323471, 3921009573, 961987163,
   1508970993, 2453635748, 2870763221, 3624381080, 310598401,
   607225278, 1426881987, 1925078388, 2162078206, 2614888103,
   3248222580, 3835390401, 4022224774, 264347078, 604807628,
   770255983, 1249150122, 1555081692, 1996064986, 2554220882,
   2821834349, 2952996808, 3210313671, 3336571891, 3584528711,
   113926993, 338241895, 666307205, 773529912, 1294757372,
   1396182291, 1695183700, 1986661051, 2177026350, 2456956037,
   2730485921, 2820302411, 3259730800, 3345764771, 3516065817,
   3600352804, 4094571909, 275423344, 430227734, 506948616,
   659060556, 883997877, 958139571, 1322822218, 1537002063,
   1747873779, 1955562222, 2024104815, 2227730452, 2361852424,
   2428436474, 2756734187, 3204031479, 3329325298]

/-- The initial SHA-256 hash state (decimal). -/
def H256 : List Nat :=
  [1779033703, 3144134277, 1013904242, 2773480762,
   1359893119, 2600822924, 528734635, 1541459225]

/-- Merkle–Damgård padding: append `0x80`, zeros to 56 mod 64, then the
bit length as 8 big-endian bytes. -/
def shaPad (msg : List Nat) : List Nat :=
  let L := msg.length
  let z := (120 - (L + 1) % 64) % 64
  let bits := 8 * L
  msg ++ [128] ++ List.replicate z 0 ++
    [bits / 2 ^ 56 % 256, bits / 2 ^ 48 % 256, bits / 2 ^ 40 % 256, bits / 2 ^ 32 % 256,
     bits / 2 ^ 24 % 256, bits / 2 ^ 16 % 256, bits / 2 ^ 8 % 256, bits % 256]

/-- Group bytes into big-endian 32-bit words. -/
def bytesToWords : List Nat → List Nat
  | a :: b :: c :: d :: rest => (a * 16777216 + b * 65536 + c * 256 + d) :: bytesToWords rest
  | _ => []

/-- Big-endian bytes of one 32-bit word. -/
def wordBytes (wd : Nat) : List Nat :=
  [wd / 16777216 % 256, wd / 65536 % 256, wd / 256 % 256, wd % 256]

/-- Extend the 16 message words to the 64-entry message schedule. -/
def msgSchedule (w16 : List Nat) : List Nat :=
  (List.range 48).foldl
    (fun ws _ =>
      let i := ws.length
      ws ++ [w32 (smallS1 (ws.getD (i - 2) 0) + ws.getD (i - 7) 0 +
                  smallS0 (ws.getD (i - 15) 0) + ws.getD (i - 16) 0)])
    w16

/-- One SHA-256 round, acting on the 8-word working state. -/
def shaRound (st : List Nat) (kw : Nat × Nat) : List Nat :=
  match st with
  | [a, b, c, d, e, f, g, h] =>
    let ch := (e &&& f) ^^^ ((e ^^^ 4294967295) &&& g)
    let t1 := w32 (h + bigS1 e + ch + kw.1 + kw.2)
    let maj := (a &&& b) ^^^ (a &&& c) ^^^ (b &&& c)
    let t2 := w32 (bigS0 a + maj)
    [w32 (t1 + t2), a, b, c, w32 (d + t1), e, f, g]
  | other => other

/-- Compress one 64-byte block into the running hash state. -/
def compressBlock (st : List Nat) (block : List Nat) : List Nat :=
  let ws := msgSchedule (bytesToWords block)
  let fin := (K256.zip ws).foldl shaRound st
  List.zipWith (fun x y => w32 (x + y)) st fin

/-- Split a list into 64-byte chunks (fuel-driven so it computes by `decide`). -/
def chunks64Aux : Nat → List Nat → List (List Nat)
  | 0, _ => []
  | _, [] => []
  | n + 1, l => l.take 64 :: chunks64Aux n (l.drop 64)

def chunks64 (l : List Nat) : List (List Nat) := chunks64Aux (l.length + 1) l

/-- SHA-256 of a byte list, as 32 digest bytes. -/
def sha256 (msg : List Nat) : List Nat :=
  (((chunks64 (shaPad msg)).foldl compressBlock H256).map wordBytes).flatten

/-! ## HMAC-SHA256 (RFC 2104) -/

/-- HMAC-SHA256 over byte lists; returns the 32 raw digest bytes
(`crypto.createHmac('sha256', key).update(msg).digest()`). -/
def hmacSha256 (key msg : List Nat) : List Nat :=
  let k0 := if key.length > 64 then sha256 key else key
  let kp := k0 ++ List.replicate (64 - k0.length) 0
  let inner := sha256 (kp.map (fun b => b ^^^ 54) ++ msg)
  sha256 (kp.map (fun b => b ^^^ 92) ++ inner)

/-! ## The signing helpers of `src/api.js` -/

/-- Source helper `sign(key, msg)` (line 8): `crypto.createHmac('sha256', key).update(msg).digest()`. -/
def sign (key msg : List Nat) : List Nat := hmacSha256 key msg

/-- Source function `getSigningKey(secretKey, dateStamp, regionName, serviceName)`
(lines 12-17): the four chained HMAC steps. -/
def getSigningKey (secretKey dateStamp regionName serviceName : String) : List Nat :=
  let kDate := sign (strBytes ("AWS4" ++ secretKey)) (strBytes dateStamp)
  let kRegion := sign kDate (strBytes regionName)
  let kService := sign kRegion (strBytes serviceName)
  sign kService (strBytes "aws4_request")

/-- The key-derivation chain written independently from the spec (§4.2):
`kSigning = HMAC(HMAC(HMAC(HMAC("AWS4" + secret, dateStamp), region), service), "aws4_request")`. -/
def deriveSpec (secret dateStamp region service : String) : List Nat :=
  let kDate := hmacSha256 (strBytes ("AWS4" ++ secret)) (strBytes dateStamp)
  let kRegion := hmacSha256 kDate (strBytes region)
  let kService := hmacSha256 kRegion (strBytes service)
  hmacSha256 kService (strBytes "aws4_request")

/-! ## Timestamps

`new Date()` is impure; the captured instant becomes an explicit value. -/

/-- A calendar instant as `Date` exposes it (UTC fields). -/
structure Instant where
  year : Nat
  month : Nat
  day : Nat
  hour : Nat
  minute : Nat
  second : Nat
  ms : Nat

/-- Two zero-padded decimal digits. -/
def pad2 (n : Nat) : List Char := [Nat.digitChar (n / 10), Nat.digitChar (n % 10)]

/-- Three zero-padded decimal digits. -/
def pad3 (n : Nat) : List Char :=
  [Nat.digitChar (n / 100), Nat.digitChar (n / 10 % 10), Nat.digitChar (n % 10)]

/-- Four zero-padded decimal digits. -/
def pad4 (n : Nat) : List Char :=
  [Nat.digitChar (n / 1000), Nat.digitChar (n / 100 % 10), Nat.digitChar (n / 10 % 10),
   Nat.digitChar (n % 10)]

/-- Model of `Date.prototype.toISOString`: the fixed 24-character form
`YYYY-MM-DDTHH:MM:SS.mmmZ` (years below 10000). -/
def jsToISOString (t : Instant) : String :=
  String.mk (pad4 t.year ++ ['-'] ++ pad2 t.month ++ ['-'] ++ pad2 t.day ++ ['T'] ++
    pad2 t.hour ++ [':'] ++ pad2 t.minute ++ [':'] ++ pad2 t.second ++ ['.'] ++
    pad3 t.ms ++ ['Z'])

/-- The global replace of `/[:-]|\.\d{3}/` by the empty string: left-to-right,
drop each `:` or `-`, and drop each `.` followed by three digits. -/
def stripAmz : List Char → List Char
  | [] => []
  | c :: a :: b :: d :: rest2 =>
    if c = ':' ∨ c = '-' then stripAmz (a :: b :: d :: rest2)
    else if c = '.' ∧ (a.isDigit && b.isDigit && d.isDigit) then stripAmz rest2
    else c :: stripAmz (a :: b :: d :: rest2)
  | c :: rest =>
    if c = ':' ∨ c = '-' then stripAmz rest
    else c :: stripAmz rest

/-- Source value `amzDate`: the ISO timestamp with punctuation and milliseconds
stripped, cut to 15 characters, with `'Z'` appended (line 26 of the source). -/
def amzDateOf (t : Instant) : String :=
  String.mk ((stripAmz (jsToISOString t).data).take 15) ++ "Z"

/-- Source value `dateStamp = amzDate.slice(0, 8)` (line 27). -/
def dateStampOf (t : Instant) : String :=
  String.mk ((amzDateOf t).data.take 8)

/-! ## The canonical request and the authorization header -/

/-- The outcome of `new URL(url)` for a well-formed URL: the components the
signer reads. The WHATWG parser lowercases `host` and percent-normalizes
`pathname`; `search` is empty or starts with `?`. -/
structure ParsedURL where
  host : String
  pathname : String
  search : String

/-- The named arguments of `buildAuthHeader` (line 19). `body` may be absent:
the source guards with `body || ''`. -/
structure SignReq where
  method : String
  url : ParsedURL
  body : Option String
  service : String
  region : String
  accessKeyId : String
  secretAccessKey : String

/-- Model of `String.prototype.toUpperCase` (ASCII range). -/
def jsToUpper (s : String) : String := String.mk (s.data.map Char.toUpper)

/-- Model of `String.prototype.toLowerCase` (ASCII range); the WHATWG URL
parser leaves `host` in this form. -/
def jsToLower (s : String) : String := String.mk (s.data.map Char.toLower)

/-- Source value `queryString = parsedUrl.search ? parsedUrl.search.slice(1) : ''` (line 23). -/
def queryStringOf (u : ParsedURL) : String :=
  if u.search = "" then "" else String.mk (u.search.data.drop 1)

/-- Model of `Array.prototype.join('\n')`. -/
def joinNL : List String → String
  | [] => ""
  | [s] => s
  | s :: rest => s ++ "\n" ++ joinNL rest

/-- Source value `payloadHash` (line 29): hex SHA-256 of `body || ''`. -/
def payloadHashOf (body : Option String) : String :=
  toHex (sha256 (strBytes (body.getD "")))

/-- The canonical request (lines 31–41): six fields joined by `\n`. -/
def canonicalRequestOf (req : SignReq) (amzDate : String) : String :=
  let canonicalHeaders := "host:" ++ req.url.host ++ "\nx-amz-date:" ++ amzDate ++ "\n"
  let signedHeaders := "host;x-amz-date"
  joinNL [jsToUpper req.method, req.url.pathname, queryStringOf req.url,
          canonicalHeaders, signedHeaders, payloadHashOf req.body]

/-- The result of `buildAuthHeader`: `{ authorization, amzDate }`. -/
structure AuthHeader where
  authorization : String
  amzDate : String

/-- Source function `buildAuthHeader` (lines 19-57), with the captured instant explicit. -/
def buildAuthHeader (req : SignReq) (now : Instant) : AuthHeader :=
  let amzDate := amzDateOf now
  let dateStamp := dateStampOf now
  let signedHeaders := "host;x-amz-date"
  let canonicalRequest := canonicalRequestOf req amzDate
  let credentialScope := dateStamp ++ "/" ++ req.region ++ "/" ++ req.service ++ "/aws4_request"
  let stringToSign := joinNL ["AWS4-HMAC-SHA256", amzDate, credentialScope,
                              toHex (sha256 (strBytes canonicalRequest))]
  let signingKey := getSigningKey req.secretAccessKey dateStamp req.region req.service
  let signature := toHex (hmacSha256 signingKey (strBytes stringToSign))
  { authorization := "AWS4-HMAC-SHA256 Credential=" ++ req.accessKeyId ++ "/" ++
      credentialScope ++ ", SignedHeaders=" ++ signedHeaders ++ ", Signature=" ++ signature,
    amzDate := amzDate }

/-! ## Transport error mapping (`handleApiError`, lines 99–118) -/

/-- The response body fields `handleApiError` probes, plus the value of
`JSON.stringify(data)`. An absent field is `none`; JavaScript `||` also
skips an empty string, which the embedding reproduces. -/
structure RespData where
  message : Option String
  Message : Option String
  error : Option String
  stringified : String

/-- JavaScript `a || b` on an optional string `a`: falls through when `a`
is absent or empty. -/
def jsOrStr (v : Option String) (w : String) : String :=
  match v with
  | some s => if s = "" then w else s
  | none => w

/-- Source line 110: `data?.message || data?.Message || data?.error || JSON.stringify(data)`. -/
def messageOf (d : RespData) : String :=
  jsOrStr d.message (jsOrStr d.Message (jsOrStr d.error d.stringified))

/-- An axios failure: a server response with a non-2xx status, a request
that got no response, or a setup error thrown before sending. -/
inductive AxiosFailure where
  | response (status : Nat) (data : RespData)
  | request
  | setup (msg : String)

/-- The client error taxonomy the transport raises (each constructor is one
`throw new Error(...)` site of `handleApiError`, plus the rethrow branch). -/
inductive BatchError where
  | authenticationFailed
  | notFound
  | rateLimited
  | apiError (status : Nat) (message : String)
  | networkError
  | rethrown (msg : String)
deriving DecidableEq

/-- Source function `handleApiError` (lines 99–118): maps each failure to
the one typed error it throws. -/
def handleApiError : AxiosFailure → BatchError
  | .response status data =>
    if status = 401 ∨ status = 403 then .authenticationFailed
    else if status = 404 then .notFound
    else if status = 429 then .rateLimited
    else .apiError status (messageOf data)
  | .request => .networkError
  | .setup m => .rethrown m

/-- The `try`/`catch` of `client.request` (lines 79–95): a success returns the
parsed data, a failure ends in `handleApiError`, which always throws — so the
call never produces a value on a failure. -/
def clientRequest {α : Type} (outcome : Except AxiosFailure α) : Except BatchError α :=
  match outcome with
  | .ok v => .ok v
  | .error e => .error (handleApiError e)

/-! ## Envelope unwrapping (resource operations) -/

/-- A job-queue object as the `listQueues` round-trip example names it. -/
structure JobQueueObj where
  jobQueueName : String
deriving DecidableEq

/-- The parsed response of `GET /v1/jobqueues`: the `jobQueues` envelope
field, possibly absent. -/
structure ListQueuesData (α : Type) where
  jobQueues : Option (List α)

/-- The parsed response of `POST /v1/describejobs`: the `jobs` envelope
field, possibly absent. -/
structure DescribeJobsData (α : Type) where
  jobs : Option (List α)

/-- The parsed response of `POST /v1/listjobs`: the `jobSummaryList`
envelope field, possibly absent. -/
structure ListJobsData (α : Type) where
  jobSummaryList : Option (List α)

/-- The parsed response of `GET /v1/jobdefinitions`: the `jobDefinitions`
envelope field, possibly absent. -/
structure JobDefsData (α : Type) where
  jobDefinitions : Option (List α)

/-- Envelope unwrap of `listQueues` (line 169): `data?.jobQueues || []`,
as a function of the transport's parsed response. -/
def listQueues {α : Type} (data : Option (ListQueuesData α)) : List α :=
  (data.bind ListQueuesData.jobQueues).getD []

/-- Envelope unwrap of `describeJobs` (line 140): `data?.jobs || []`. -/
def describeJobs {α : Type} (data : Option (DescribeJobsData α)) : List α :=
  (data.bind DescribeJobsData.jobs).getD []

/-- Envelope unwrap of `listJobs` (line 150): `data?.jobSummaryList || []`. -/
def listJobs {α : Type} (data : Option (ListJobsData α)) : List α :=
  (data.bind ListJobsData.jobSummaryList).getD []

/-- Envelope unwrap of the job-definition operations (lines 211, 218):
`data?.jobDefinitions || []`. -/
def jobDefsOf {α : Type} (data : Option (JobDefsData α)) : List α :=
  (data.bind JobDefsData.jobDefinitions).getD []

/-! ## JSON values and `JSON.stringify` -/

/-- A JSON-shaped request value. -/
inductive JVal where
  | str (s : String)
  | num (n : Int)
  | bool (b : Bool)
  | null
  | arr (elems : List JVal)
  | obj (fields : List (String × JVal))

/-- Escape one character as `JSON.stringify` renders it inside a string. -/
def jsonEscapeChar (c : Char) : List Char :=
  if c = '"' then ['\\', '"']
  else if c = '\\' then ['\\', '\\']
  else if c = '\n' then ['\\', 'n']
  else if c = '\t' then ['\\', 't']
  else if c = '\r' then ['\\', 'r']
  else if c.toNat < 32 then
    ['\\', 'u', '0', '0', Nat.digitChar (c.toNat / 16), Nat.digitChar (c.toNat % 16)]
  else [c]

/-- Escape a string body as `JSON.stringify` renders it. -/
def jsonEscape (s : String) : String :=
  String.mk (s.data.foldr (fun c acc => jsonEscapeChar c ++ acc) [])

mutual

/-- Model of `JSON.stringify` (no indentation: members separated by `,`,
no added whitespace, object keys in insertion order). -/
def jsonStringify : JVal → String
  | .str s => "\"" ++ jsonEscape s ++ "\""
  | .num n => toString n
  | .bool b => if b then "true" else "false"
  | .null => "null"
  | .arr es => "[" ++ stringifyArr es ++ "]"
  | .obj fs => "\x7b" ++ stringifyObj fs ++ "\x7d"

/-- Comma-separated renderings of array elements. -/
def stringifyArr : List JVal → String
  | [] => ""
  | [e] => jsonStringify e
  | e :: rest => jsonStringify e ++ "," ++ stringifyArr rest

/-- Comma-separated `"key":value` renderings of object members. -/
def stringifyObj : List (String × JVal) → String
  | [] => ""
  | [(k, v)] => "\"" ++ jsonEscape k ++ "\":" ++ jsonStringify v
  | (k, v) :: rest => "\"" ++ jsonEscape k ++ "\":" ++ jsonStringify v ++ "," ++ stringifyObj rest

end

/-- Source line 68: `const body = data ? JSON.stringify(data) : ''` — the
wire body the signer hashes and the transport sends. -/
def requestBody (data : Option JVal) : String :=
  match data with
  | some d => jsonStringify d
  | none => ""

/-- Source function `submitJob` (lines 124–135): the request object, with the
two optional members spread in only when present (`...(parameters && { parameters })`). -/
def submitJobBody (jobName jobQueue jobDefinition : String)
    (parameters containerOverrides : Option JVal) : JVal :=
  .obj ([("jobName", .str jobName), ("jobQueue", .str jobQueue),
         ("jobDefinition", .str jobDefinition)]
    ++ (match parameters with | some p => [("parameters", p)] | none => [])
    ++ (match containerOverrides with | some c => [("containerOverrides", c)] | none => []))

/-! ## `encodeURIComponent` and the `describeDefinitions` path -/

/-- Characters `encodeURIComponent` leaves unescaped (ECMA-262):
letters, digits, and `- _ . ! ~ * ' ( )`. -/
def uriUnescaped (c : Char) : Bool :=
  c.isAlpha || c.isDigit || c = '-' || c = '_' || c = '.' || c = '!' ||
    c = '~' || c = '*' || c = '\'' || c = '(' || c = ')'

/-- Percent-escape of one byte, `%XX` with uppercase hex. -/
def pctByte (b : Nat) : List Char :=
  ['%', (Nat.digitChar (b / 16 % 16)).toUpper, (Nat.digitChar (b % 16)).toUpper]

/-- Model of `encodeURIComponent`: unescaped characters pass through, all
others become percent-escaped UTF-8 bytes. -/
def encodeURIComponent (s : String) : String :=
  String.mk (s.data.foldr
    (fun c acc =>
      (if uriUnescaped c then [c] else (utf8Char c).foldr (fun b a2 => pctByte b ++ a2) []) ++ acc)
    [])

/-- JavaScript `definitionNames[0]` coerced to a string by the template
literal: the head, or `"undefined"` for an empty array. -/
def jsIndex0Str (l : List String) : String :=
  match l with
  | [] => "undefined"
  | x :: _ => x

/-- The path `describeDefinitions` builds (line 216):
only `definitionNames[0]` is consulted. -/
def describeDefinitionsPath (definitionNames : List String) : String :=
  "/v1/jobdefinitions?jobDefinitionName=" ++ encodeURIComponent (jsIndex0Str definitionNames)

/-- Source function `describeDefinitions` (lines 214–219) as a function of
the server's response to the request path: builds the path from the name
list, fetches, and unwraps `jobDefinitions`. -/
def describeDefinitions {α : Type} (server : String → Option (JobDefsData α))
    (definitionNames : List String) : List α :=
  jobDefsOf (server (describeDefinitionsPath definitionNames))

/-! ## Concrete example inputs (used by witnesses) -/

/-- A parsed endpoint URL as the transport builds it. -/
def urlEx : ParsedURL := ⟨"batch.us-east-1.amazonaws.com", "/v1/submitjob", ""⟩

/-- A concrete signing request. -/
def reqEx : SignReq := ⟨"post", urlEx, some "x", "batch", "us-east-1", "AKID", "SECRET"⟩

/-- A concrete captured instant: 2015-08-30T12:36:00.123Z. -/
def instEx : Instant := ⟨2015, 8, 30, 12, 36, 0, 123⟩

/-- A concrete error-response body. -/
def respEx : RespData := ⟨some "boom", none, none, "st"⟩

end AwsBatch

namespace AwsBatch

/-! ## Helper lemmas -/

/-- Characters other than `:`, `-` and `.` pass through the regex strip. -/
theorem strip_keep (c : Char) (l : List Char) (h1 : ¬c = ':') (h2 : ¬c = '-')
    (h3 : ¬c = '.') : stripAmz (c :: l) = c :: stripAmz l := by
  rcases l with _ | ⟨a, _ | ⟨b, _ | ⟨d, r⟩⟩⟩ <;> simp [stripAmz, h1, h2, h3]

/-- A colon is dropped by the regex strip. -/
theorem strip_colon (l : List Char) : stripAmz (':' :: l) = stripAmz l := by
  rcases l with _ | ⟨a, _ | ⟨b, _ | ⟨d, r⟩⟩⟩ <;> simp [stripAmz]

/-- A dash is dropped by the regex strip. -/
theorem strip_dash (l : List Char) : stripAmz ('-' :: l) = stripAmz l := by
  rcases l with _ | ⟨a, _ | ⟨b, _ | ⟨d, r⟩⟩⟩ <;> simp [stripAmz]

/-- A dot followed by three digits is dropped by the regex strip. -/
theorem strip_dot3 (a b d : Char) (l : List Char) (ha : a.isDigit = true)
    (hb : b.isDigit = true) (hd : d.isDigit = true) :
    stripAmz ('.' :: a :: b :: d :: l) = stripAmz l := by
  simp [stripAmz, ha, hb, hd]

/-- Decimal digit characters are digits. -/
theorem digit_isDigit (d : Nat) (h : d < 10) : (Nat.digitChar d).isDigit = true := by
  interval_cases d <;> decide

/-- A decimal digit character passes through the regex strip. -/
theorem strip_digit (d : Nat) (l : List Char) (h : d < 10) :
    stripAmz (Nat.digitChar d :: l) = Nat.digitChar d :: stripAmz l := by
  apply strip_keep <;> interval_cases d <;> decide

/-- For an in-range instant, `amzDate` is the compact basic form
`YYYYMMDDTHHMMSSZ` of the captured instant. -/
theorem amzDate_compact (t : Instant) (hy : t.year < 10000) (hmo : t.month < 100)
    (hd : t.day < 100) (hh : t.hour < 100) (hmi : t.minute < 100) (hs : t.second < 100)
    (hms : t.ms < 1000) :
    amzDateOf t = String.mk (pad4 t.year ++ pad2 t.month ++ pad2 t.day ++ ['T'] ++
      pad2 t.hour ++ pad2 t.minute ++ pad2 t.second ++ ['Z']) := by
  have h1 : stripAmz (jsToISOString t).data =
      (pad4 t.year ++ pad2 t.month ++ pad2 t.day ++ ['T'] ++ pad2 t.hour ++ pad2 t.minute ++
        pad2 t.second) ++ ['Z'] := by
    show stripAmz (pad4 t.year ++ ['-'] ++ pad2 t.month ++ ['-'] ++ pad2 t.day ++ ['T'] ++
      pad2 t.hour ++ [':'] ++ pad2 t.minute ++ [':'] ++ pad2 t.second ++ ['.'] ++
      pad3 t.ms ++ ['Z']) = _
    simp only [pad4, pad2, pad3, List.cons_append, List.nil_append]
    rw [strip_digit _ _ (by omega), strip_digit _ _ (by omega), strip_digit _ _ (by omega),
        strip_digit _ _ (by omega), strip_dash,
        strip_digit _ _ (by omega), strip_digit _ _ (by omega), strip_dash,
        strip_digit _ _ (by omega), strip_digit _ _ (by omega),
        strip_keep 'T' _ (by decide) (by decide) (by decide),
        strip_digit _ _ (by omega), strip_digit _ _ (by omega), strip_colon,
        strip_digit _ _ (by omega), strip_digit _ _ (by omega), strip_colon,
        strip_digit _ _ (by omega), strip_digit _ _ (by omega),
        strip_dot3 _ _ _ _ (digit_isDigit _ (by omega)) (digit_isDigit _ (by omega))
          (digit_isDigit _ (by omega))]
    simp [stripAmz]
  have hlen : (pad4 t.year ++ pad2 t.month ++ pad2 t.day ++ ['T'] ++ pad2 t.hour ++
      pad2 t.minute ++ pad2 t.second).length = 15 := by simp [pad4, pad2]
  show String.mk ((stripAmz (jsToISOString t).data).take 15) ++ "Z" = _
  rw [h1, ← hlen, List.take_left]
  rfl

/-- The authorization and timestamp values `buildAuthHeader` returns, written
out as the spec's assembly formulas. -/
theorem buildAuthHeader_formula (req : SignReq) (t : Instant) :
    (buildAuthHeader req t).amzDate = amzDateOf t ∧
    (buildAuthHeader req t).authorization =
      "AWS4-HMAC-SHA256 Credential=" ++ req.accessKeyId ++ "/" ++
        (dateStampOf t ++ "/" ++ req.region ++ "/" ++ req.service ++ "/aws4_request") ++
        ", SignedHeaders=host;x-amz-date, Signature=" ++
        toHex (hmacSha256
          (getSigningKey req.secretAccessKey (dateStampOf t) req.region req.service)
          (strBytes ("AWS4-HMAC-SHA256\n" ++ amzDateOf t ++ "\n" ++
            (dateStampOf t ++ "/" ++ req.region ++ "/" ++ req.service ++ "/aws4_request") ++
            "\n" ++ toHex (sha256 (strBytes (canonicalRequestOf req (amzDateOf t))))))) := by
  refine ⟨rfl, ?_⟩
  rw [show ("AWS4-HMAC-SHA256\n" : String) = "AWS4-HMAC-SHA256" ++ "\n" from rfl,
      show (", SignedHeaders=host;x-amz-date, Signature=" : String) =
        ", SignedHeaders=" ++ "host;x-amz-date" ++ ", Signature=" from rfl]
  simp [buildAuthHeader, joinNL, String.append_assoc]

/-! ## Claim theorems -/

/-- C1: for every secret, dateStamp, region and service, `getSigningKey`
returns the raw bytes of the four-step HMAC-SHA256 chain
`HMAC(HMAC(HMAC(HMAC("AWS4" + secret, dateStamp), region), service), "aws4_request")`,
and in particular agrees with that chain on the spec's known vector
(secret `wJalrXUtnFEMI/K7MDENG/bPxRfiCYEXAMPLEKEY`, date `20150830`,
region `us-east-1`, service `batch`). -/
theorem keyChain_correct (secret dateStamp region service : String) :
    getSigningKey secret dateStamp region service = deriveSpec secret dateStamp region service ∧
    getSigningKey "wJalrXUtnFEMI/K7MDENG/bPxRfiCYEXAMPLEKEY" "20150830" "us-east-1" "batch" =
      deriveSpec "wJalrXUtnFEMI/K7MDENG/bPxRfiCYEXAMPLEKEY" "20150830" "us-east-1" "batch" :=
  ⟨rfl, rfl⟩

/-- C2: for every method, parsed URL (host already lowercased by the URL
parser), body and captured `amzDate`, the canonical request is the six
fields joined by newlines — uppercased method; the path verbatim; the raw
query string if present, else empty; the header block
`host:<host>\nx-amz-date:<amzDate>\n`; the literal `host;x-amz-date`; and
the lower-case hex SHA-256 of the body. -/
theorem canonicalRequest_exact (req : SignReq) (amzDate : String)
    (_hlow : jsToLower req.url.host = req.url.host) :
    canonicalRequestOf req amzDate =
      jsToUpper req.method ++ "\n" ++ req.url.pathname ++ "\n" ++
        (if req.url.search = "" then "" else String.mk (req.url.search.data.drop 1)) ++ "\n" ++
        ("host:" ++ req.url.host ++ "\nx-amz-date:" ++ amzDate ++ "\n") ++ "\n" ++
        "host;x-amz-date" ++ "\n" ++ toHex (sha256 (strBytes (req.body.getD ""))) := by
  simp [canonicalRequestOf, joinNL, queryStringOf, payloadHashOf, String.append_assoc]
  rw [show ("\n\nhost;x-amz-date\n" : String) = "\n\n" ++ "host;x-amz-date\n" from rfl,
      String.append_assoc]

/-- Witness for C2 at a concrete request and timestamp. -/
theorem canonicalRequest_exact_instance :
    jsToLower reqEx.url.host = reqEx.url.host ∧
    canonicalRequestOf reqEx "20150830T123600Z" =
      jsToUpper reqEx.method ++ "\n" ++ reqEx.url.pathname ++ "\n" ++
        (if reqEx.url.search = "" then "" else String.mk (reqEx.url.search.data.drop 1)) ++
        "\n" ++ ("host:" ++ reqEx.url.host ++ "\nx-amz-date:" ++ "20150830T123600Z" ++ "\n") ++
        "\n" ++ "host;x-amz-date" ++ "\n" ++ toHex (sha256 (strBytes (reqEx.body.getD ""))) :=
  ⟨by decide, canonicalRequest_exact reqEx "20150830T123600Z" (by decide)⟩

/-- C3: the signer computes `stringToSign` as the algorithm line, the
timestamp, the credential scope `dateStamp/region/service/aws4_request` and
the hex SHA-256 of the canonical request joined by newlines, signs it with
the key derived from the credential's secret, dateStamp, region and
service, and assembles the authorization header
`AWS4-HMAC-SHA256 Credential=<akid>/<scope>, SignedHeaders=host;x-amz-date, Signature=<sig>`. -/
theorem authHeader_assembly (req : SignReq) (t : Instant) :
    (buildAuthHeader req t).amzDate = amzDateOf t ∧
    (buildAuthHeader req t).authorization =
      "AWS4-HMAC-SHA256 Credential=" ++ req.accessKeyId ++ "/" ++
        (dateStampOf t ++ "/" ++ req.region ++ "/" ++ req.service ++ "/aws4_request") ++
        ", SignedHeaders=host;x-amz-date, Signature=" ++
        toHex (hmacSha256
          (getSigningKey req.secretAccessKey (dateStampOf t) req.region req.service)
          (strBytes ("AWS4-HMAC-SHA256\n" ++ amzDateOf t ++ "\n" ++
            (dateStampOf t ++ "/" ++ req.region ++ "/" ++ req.service ++ "/aws4_request") ++
            "\n" ++ toHex (sha256 (strBytes (canonicalRequestOf req (amzDateOf t))))))) :=
  buildAuthHeader_formula req t

/-- C4: a request with no body (absent or empty) has payload hash equal to
the SHA-256 digest of the empty string,
`e3b0c44298fc1c149afbf4c8996fb92427ae41e4649b934ca495991b7852b855`. -/
theorem emptyBody_hash (body : Option String) (h : body = none ∨ body = some "") :
    payloadHashOf body = "e3b0c44298fc1c149afbf4c8996fb92427ae41e4649b934ca495991b7852b855" := by
  have he : payloadHashOf none =
      "e3b0c44298fc1c149afbf4c8996fb92427ae41e4649b934ca495991b7852b855" := by decide
  rcases h with h | h <;> subst h
  · exact he
  · exact he

/-- Witness for C4 at the concrete bodyless input. -/
theorem emptyBody_hash_instance :
    ((none : Option String) = none ∨ (none : Option String) = some "") ∧
    payloadHashOf none = "e3b0c44298fc1c149afbf4c8996fb92427ae41e4649b934ca495991b7852b855" :=
  ⟨Or.inl rfl, emptyBody_hash none (Or.inl rfl)⟩

/-- C5: the transport error mapper raises exactly one typed error per call:
401/403 → `authenticationFailed`, 404 → `notFound`, 429 → `rateLimited`,
any other non-2xx status → `apiError` with the server status and message,
no response → `networkError`; a failed call never produces a value. -/
theorem errorMapping (status : Nat) (data : RespData) :
    (status = 401 ∨ status = 403 →
      handleApiError (.response status data) = .authenticationFailed) ∧
    (status = 404 → handleApiError (.response status data) = .notFound) ∧
    (status = 429 → handleApiError (.response status data) = .rateLimited) ∧
    (status < 200 ∨ 300 ≤ status → status ≠ 401 → status ≠ 403 → status ≠ 404 → status ≠ 429 →
      handleApiError (.response status data) = .apiError status (messageOf data)) ∧
    handleApiError .request = .networkError ∧
    ∀ e : AxiosFailure,
      clientRequest (Except.error e) = (Except.error (handleApiError e) : Except BatchError Unit) := by
  refine ⟨?_, ?_, ?_, ?_, rfl, fun e => rfl⟩
  · intro h
    rcases h with h | h <;> subst h <;> simp [handleApiError]
  · intro h; subst h; simp [handleApiError]
  · intro h; subst h; simp [handleApiError]
  · intro _ h1 h2 h3 h4
    simp [handleApiError, h1, h2, h3, h4]

/-- Witness for C5 at concrete statuses 403, 404, 429, 500 and a missing
response. -/
theorem errorMapping_instance :
    handleApiError (.response 403 respEx) = .authenticationFailed ∧
    handleApiError (.response 404 respEx) = .notFound ∧
    handleApiError (.response 429 respEx) = .rateLimited ∧
    handleApiError (.response 500 respEx) = .apiError 500 (messageOf respEx) ∧
    handleApiError .request = .networkError :=
  ⟨(errorMapping 403 respEx).1 (Or.inr rfl),
   (errorMapping 404 respEx).2.1 rfl,
   (errorMapping 429 respEx).2.2.1 rfl,
   (errorMapping 500 respEx).2.2.2.1 (Or.inr (by decide)) (by decide) (by decide) (by decide)
     (by decide),
   (errorMapping 500 respEx).2.2.2.2.1⟩

/-- C6: each list operation returns exactly the contents of its envelope
field (`jobQueues`, `jobs`, `jobSummaryList`), a missing field yields the
empty list, and `listQueues` on `\x7bjobQueues: [\x7bjobQueueName:"q1"\x7d]\x7d`
returns `[\x7bjobQueueName:"q1"\x7d]`. -/
theorem envelopeRoundTrip (α : Type) (qs js ss : List α) :
    listQueues (some ⟨some qs⟩) = qs ∧
    listQueues (some (⟨none⟩ : ListQueuesData α)) = [] ∧
    listQueues (none : Option (ListQueuesData α)) = [] ∧
    describeJobs (some ⟨some js⟩) = js ∧
    describeJobs (some (⟨none⟩ : DescribeJobsData α)) = [] ∧
    describeJobs (none : Option (DescribeJobsData α)) = [] ∧
    listJobs (some ⟨some ss⟩) = ss ∧
    listJobs (some (⟨none⟩ : ListJobsData α)) = [] ∧
    listJobs (none : Option (ListJobsData α)) = [] ∧
    listQueues (some ⟨some [JobQueueObj.mk "q1"]⟩) = [JobQueueObj.mk "q1"] :=
  ⟨rfl, rfl, rfl, rfl, rfl, rfl, rfl, rfl, rfl, rfl⟩

/-- C7: submitting a job with name `my-job`, queue `my-queue`, definition
`my-def` and no optional fields serializes to exactly
`\x7b"jobName":"my-job","jobQueue":"my-queue","jobDefinition":"my-def"\x7d`;
the optional members are omitted entirely. -/
theorem submitJob_body_exact :
    requestBody (some (submitJobBody "my-job" "my-queue" "my-def" none none)) =
      "\x7b\"jobName\":\"my-job\",\"jobQueue\":\"my-queue\",\"jobDefinition\":\"my-def\"\x7d" := by
  decide

/-- C8: the instant is captured once; `amzDate` is its 16-character compact
form `YYYYMMDDTHHMMSSZ`, and the `dateStamp` used both in the credential
scope and in key derivation is the first 8 characters of that same
`amzDate`, so the scope's date matches the request timestamp's date. -/
theorem timestamp_consistency (req : SignReq) (t : Instant) (hy : t.year < 10000)
    (hmo : t.month < 100) (hd : t.day < 100) (hh : t.hour < 100) (hmi : t.minute < 100)
    (hs : t.second < 100) (hms : t.ms < 1000) :
    (buildAuthHeader req t).amzDate = amzDateOf t ∧
    amzDateOf t = String.mk (pad4 t.year ++ pad2 t.month ++ pad2 t.day ++ ['T'] ++
      pad2 t.hour ++ pad2 t.minute ++ pad2 t.second ++ ['Z']) ∧
    (amzDateOf t).length = 16 ∧
    dateStampOf t = String.mk ((amzDateOf t).data.take 8) ∧
    dateStampOf t = String.mk (pad4 t.year ++ pad2 t.month ++ pad2 t.day) ∧
    (buildAuthHeader req t).authorization =
      "AWS4-HMAC-SHA256 Credential=" ++ req.accessKeyId ++ "/" ++
        (dateStampOf t ++ "/" ++ req.region ++ "/" ++ req.service ++ "/aws4_request") ++
        ", SignedHeaders=host;x-amz-date, Signature=" ++
        toHex (hmacSha256
          (getSigningKey req.secretAccessKey (dateStampOf t) req.region req.service)
          (strBytes ("AWS4-HMAC-SHA256\n" ++ amzDateOf t ++ "\n" ++
            (dateStampOf t ++ "/" ++ req.region ++ "/" ++ req.service ++ "/aws4_request") ++
            "\n" ++ toHex (sha256 (strBytes (canonicalRequestOf req (amzDateOf t))))))) := by
  have hc := amzDate_compact t hy hmo hd hh hmi hs hms
  refine ⟨rfl, hc, ?_, rfl, ?_, (buildAuthHeader_formula req t).2⟩
  · rw [hc]; simp [pad4, pad2]
  · show String.mk ((amzDateOf t).data.take 8) = _
    rw [hc]
    have h8 : (pad4 t.year ++ pad2 t.month ++ pad2 t.day ++ ['T'] ++ pad2 t.hour ++
        pad2 t.minute ++ pad2 t.second ++ ['Z']).take 8 =
        pad4 t.year ++ pad2 t.month ++ pad2 t.day := by
      simp [List.take_append_eq_append_take, pad4, pad2]
    exact congrArg String.mk h8

/-- Witness for C8 at the concrete instant 2015-08-30T12:36:00.123Z. -/
theorem timestamp_consistency_instance :
    instEx.year < 10000 ∧ instEx.month < 100 ∧ instEx.day < 100 ∧ instEx.hour < 100 ∧
    instEx.minute < 100 ∧ instEx.second < 100 ∧ instEx.ms < 1000 ∧
    amzDateOf instEx = String.mk (pad4 instEx.year ++ pad2 instEx.month ++ pad2 instEx.day ++
      ['T'] ++ pad2 instEx.hour ++ pad2 instEx.minute ++ pad2 instEx.second ++ ['Z']) ∧
    dateStampOf instEx = String.mk ((amzDateOf instEx).data.take 8) := by
  have h := timestamp_consistency reqEx instEx (by decide) (by decide) (by decide) (by decide)
    (by decide) (by decide) (by decide)
  exact ⟨by decide, by decide, by decide, by decide, by decide, by decide, by decide,
    h.2.1, h.2.2.2.1⟩

/-- C9: signing is deterministic — equal request descriptors, equal
credentials and an equal captured instant give identical authorization and
timestamp header values. -/
theorem signing_deterministic (r1 r2 : SignReq) (t1 t2 : Instant)
    (hr : r1 = r2) (ht : t1 = t2) :
    (buildAuthHeader r1 t1).authorization = (buildAuthHeader r2 t2).authorization ∧
    (buildAuthHeader r1 t1).amzDate = (buildAuthHeader r2 t2).amzDate := by
  subst hr; subst ht; exact ⟨rfl, rfl⟩

/-- Witness for C9 at a concrete request and instant. -/
theorem signing_deterministic_instance :
    reqEx = reqEx ∧ instEx = instEx ∧
    (buildAuthHeader reqEx instEx).authorization = (buildAuthHeader reqEx instEx).authorization ∧
    (buildAuthHeader reqEx instEx).amzDate = (buildAuthHeader reqEx instEx).amzDate :=
  ⟨rfl, rfl, (signing_deterministic reqEx reqEx instEx instEx rfl rfl).1,
   (signing_deterministic reqEx reqEx instEx instEx rfl rfl).2⟩

/-- C10: `describeDefinitions` builds its request path from only the first
name — `/v1/jobdefinitions?jobDefinitionName=` followed by the URI-encoded
head — and any additional names change neither the path nor the result. -/
theorem describeDefinitions_first_only (α : Type) (server : String → Option (JobDefsData α))
    (x : String) (rest1 rest2 : List String) :
    describeDefinitionsPath (x :: rest1) =
      "/v1/jobdefinitions?jobDefinitionName=" ++ encodeURIComponent x ∧
    describeDefinitionsPath (x :: rest1) = describeDefinitionsPath (x :: rest2) ∧
    describeDefinitions server (x :: rest1) = describeDefinitions server (x :: rest2) :=
  ⟨rfl, rfl, rfl⟩

end AwsBatch
